import Mathlib

/-!
# Verification of the OTLP export pipeline (opentelemetry-rust)

Shallow embedding of the OTLP metric/log pipeline builders, the temporality
and aggregation selection policy, and the exporter wrappers, translated from:

* `opentelemetry-otlp/src/metric.rs`
* `opentelemetry-otlp/src/logs.rs`
* `opentelemetry-sdk/src/export/logs/mod.rs`
* `opentelemetry-sdk/benches/log_exporter.rs`

Rust `Option<T>` becomes `Option T`, `Result<T, E>` becomes `Except E T`,
boxed selector trait objects become plain functions on `InstrumentKind`,
and `&mut self` methods become explicit state passing.
-/

/-- `InstrumentKind` from `opentelemetry_sdk::metrics` (all seven variants
matched exhaustively in `DeltaTemporalitySelector::temporality`). -/
inductive InstrumentKind where
  | Counter
  | UpDownCounter
  | Gauge
  | Histogram
  | ObservableCounter
  | ObservableUpDownCounter
  | ObservableGauge
  deriving DecidableEq, Repr

/-- `Temporality` from `opentelemetry_sdk::metrics::data`. -/
inductive Temporality where
  | Delta
  | Cumulative
  deriving DecidableEq, Repr

/-- Modelled from the spec: the `Aggregation` variants named by the default
aggregation policy (Sum, LastValue, explicit-bucket Histogram); the full
`opentelemetry_sdk::metrics::Aggregation` type is not under `src/`. -/
inductive Aggregation where
  | Sum
  | LastValue
  | ExplicitBucketHistogram
  deriving DecidableEq, Repr

/-- Modelled from the spec: a minimal `MetricsError` carrying the `Other`
message variant used by `MetricsExporterBuilder::build_metrics_exporter`;
the full error enum lives in the `opentelemetry` API crate, not under
`src/`. -/
inductive MetricsError where
  | Other (msg : String)
  deriving DecidableEq, Repr

/-- Modelled from the spec: a minimal `LogError` with the message variant;
the full error enum lives in the `opentelemetry` API crate, not under
`src/`. -/
inductive LogError where
  | Other (msg : String)
  deriving DecidableEq, Repr

/-- `LogResult<T>` alias from the `opentelemetry` API crate. -/
def LogResult (α : Type) : Type := Except LogError α

/-- Modelled from the spec: process-wide attribute set (service name, host,
environment); the concrete `Resource` type is not under `src/`. -/
structure Resource where
  attrs : List (String × String) := []
  deriving DecidableEq, Repr

/-- Modelled from the spec: `BatchConfig` is
`{max_queue_size, scheduled_delay, max_export_batch_size, max_export_timeout}`;
the concrete type is not under `src/`. Durations are milliseconds. -/
structure BatchConfig where
  max_queue_size : Nat
  scheduled_delay : Nat
  max_export_batch_size : Nat
  max_export_timeout : Nat
  deriving DecidableEq, Repr

/-- Modelled from the spec: severity of a log record, from the
`opentelemetry` API crate (not under `src/`); the trait default
`event_enabled` ignores it. -/
inductive Severity where
  | Trace | Trace2 | Trace3 | Trace4
  | Debug | Debug2 | Debug3 | Debug4
  | Info | Info2 | Info3 | Info4
  | Warn | Warn2 | Warn3 | Warn4
  | Error | Error2 | Error3 | Error4
  | Fatal | Fatal2 | Fatal3 | Fatal4
  deriving DecidableEq, Repr

/-- Modelled from the spec: a log record with observed/emitted timestamps,
severity number and text, body, target, event name and attributes; the
concrete `opentelemetry_sdk::logs::LogRecord` is not under `src/`. The
pipeline code treats it as an opaque payload. -/
structure LogRecord where
  timestamp : Option Nat := none
  observed_timestamp : Option Nat := none
  severity_number : Option Severity := none
  severity_text : Option String := none
  body : Option String := none
  target : Option String := none
  event_name : Option String := none
  attributes : List (String × String) := []
  deriving DecidableEq, Repr

/-- Modelled from the spec: name, version and schema URL of the emitting
library; the concrete `InstrumentationLibrary` type is not under `src/`. -/
structure InstrumentationLibrary where
  name : String := ""
  version : Option String := none
  schema_url : Option String := none
  deriving DecidableEq, Repr

/-- `NoExporterConfig(())`, the typestate marker for a pipeline with no
exporter configured (`opentelemetry-otlp/src/lib.rs`, used by both
pipelines under `src/`). -/
structure NoExporterConfig where
  unit : Unit := ()
  deriving DecidableEq, Repr

/-- `OtlpPipeline`, the entry point whose `logging`/`metrics` methods start
the two pipelines. -/
structure OtlpPipeline where
  deriving DecidableEq, Repr

/-- `DeltaTemporalitySelector` (unit struct, `metric.rs` line 266). -/
structure DeltaTemporalitySelector where
  deriving DecidableEq, Repr

/-- `DeltaTemporalitySelector::temporality` (`metric.rs` lines 268-285):
Delta for Counter, Histogram, ObservableCounter, Gauge, ObservableGauge;
Cumulative for UpDownCounter and ObservableUpDownCounter. -/
def DeltaTemporalitySelector.temporality (_self : DeltaTemporalitySelector)
    (kind : InstrumentKind) : Temporality :=
  match kind with
  | .Counter
  | .Histogram
  | .ObservableCounter
  | .Gauge
  | .ObservableGauge => .Delta
  | .UpDownCounter
  | .ObservableUpDownCounter => .Cumulative

/-- Modelled from the spec: `DefaultTemporalitySelector` (in
`opentelemetry_sdk::metrics::reader`, not under `src/`): Cumulative
temporality for all kinds. -/
structure DefaultTemporalitySelector where
  deriving DecidableEq, Repr

/-- Modelled from the spec: `DefaultTemporalitySelector::new()`. -/
def DefaultTemporalitySelector.new : DefaultTemporalitySelector := {}

/-- Modelled from the spec: the default policy is Cumulative temporality
for every instrument kind. -/
def DefaultTemporalitySelector.temporality (_self : DefaultTemporalitySelector)
    (_kind : InstrumentKind) : Temporality :=
  .Cumulative

/-- Modelled from the spec: `DefaultAggregationSelector` (in
`opentelemetry_sdk::metrics::reader`, not under `src/`). -/
structure DefaultAggregationSelector where
  deriving DecidableEq, Repr

/-- Modelled from the spec: `DefaultAggregationSelector::new()`. -/
def DefaultAggregationSelector.new : DefaultAggregationSelector := {}

/-- Modelled from the spec: default aggregation is Sum for the counter
kinds, LastValue for the gauges, explicit-bucket Histogram for Histogram. -/
def DefaultAggregationSelector.aggregation (_self : DefaultAggregationSelector)
    (kind : InstrumentKind) : Aggregation :=
  match kind with
  | .Counter | .UpDownCounter | .ObservableCounter | .ObservableUpDownCounter => .Sum
  | .Gauge | .ObservableGauge => .LastValue
  | .Histogram => .ExplicitBucketHistogram

/-- Modelled from the spec: a point-in-time snapshot of all instrument
readings; the concrete `ResourceMetrics` type is not under `src/` and the
code here treats it as an opaque payload. -/
structure ResourceMetrics where
  resource : Resource := {}
  deriving DecidableEq, Repr

/-- The `MetricsClient` trait (`metric.rs` lines 287-293): an async
`export(&self, &mut ResourceMetrics) -> Result<()>` and a
`shutdown(&self) -> Result<()>`. `&self` methods cannot mutate the client,
so the embedding carries the export function and the shutdown result. -/
structure MetricsClient where
  exportFn : ResourceMetrics → Except MetricsError Unit
  shutdownFn : Unit → Except MetricsError Unit

/-- `MetricsExporter` (`metric.rs` lines 295-300): a boxed client plus the
composed temporality and aggregation selectors (boxed trait objects,
embedded as functions on `InstrumentKind`). -/
structure MetricsExporter where
  client : MetricsClient
  temporality_selector : InstrumentKind → Temporality
  aggregation_selector : InstrumentKind → Aggregation

/-- `MetricsExporter::new` (`metric.rs` lines 337-350). -/
def MetricsExporter.new (client : MetricsClient)
    (temporality_selector : InstrumentKind → Temporality)
    (aggregation_selector : InstrumentKind → Aggregation) : MetricsExporter :=
  { client := client
    temporality_selector := temporality_selector
    aggregation_selector := aggregation_selector }

/-- `impl TemporalitySelector for MetricsExporter` (`metric.rs` lines
308-312): delegates to the composed selector. -/
def MetricsExporter.temporality (self : MetricsExporter)
    (kind : InstrumentKind) : Temporality :=
  self.temporality_selector kind

/-- `impl AggregationSelector for MetricsExporter` (`metric.rs` lines
314-318): delegates to the composed selector. -/
def MetricsExporter.aggregation (self : MetricsExporter)
    (kind : InstrumentKind) : Aggregation :=
  self.aggregation_selector kind

/-- `PushMetricsExporter::export` for `MetricsExporter` (`metric.rs` lines
323-325): forwards to the client. -/
def MetricsExporter.exportMetrics (self : MetricsExporter)
    (metrics : ResourceMetrics) : Except MetricsError Unit :=
  self.client.exportFn metrics

/-- `PushMetricsExporter::force_flush` for `MetricsExporter` (`metric.rs`
lines 327-330): `Ok(())`, the component is stateless. -/
def MetricsExporter.force_flush (_self : MetricsExporter) :
    Except MetricsError Unit :=
  .ok ()

/-- `PushMetricsExporter::shutdown` for `MetricsExporter` (`metric.rs`
lines 332-334): forwards to the client. -/
def MetricsExporter.shutdown (self : MetricsExporter) :
    Except MetricsError Unit :=
  self.client.shutdownFn ()

/-- Modelled from the spec: the gRPC transport exporter builder
(`crate::exporter::tonic::TonicExporterBuilder`, not under `src/`): its
configuration resolves to a concrete client once at build time. -/
structure TonicExporterBuilder where
  resolvedClient : MetricsClient

/-- Modelled from the spec: the HTTP transport exporter builder
(`crate::exporter::http::HttpExporterBuilder`, not under `src/`). -/
structure HttpExporterBuilder where
  resolvedClient : MetricsClient

/-- Modelled from the spec: `TonicExporterBuilder::build_metrics_exporter`
(not under `src/`) resolves the transport client and composes the given
selectors into the exporter via `MetricsExporter::new`. -/
def TonicExporterBuilder.build_metrics_exporter (self : TonicExporterBuilder)
    (aggregation_selector : InstrumentKind → Aggregation)
    (temporality_selector : InstrumentKind → Temporality) :
    Except MetricsError MetricsExporter :=
  .ok (MetricsExporter.new self.resolvedClient temporality_selector aggregation_selector)

/-- Modelled from the spec: `HttpExporterBuilder::build_metrics_exporter`
(not under `src/`). -/
def HttpExporterBuilder.build_metrics_exporter (self : HttpExporterBuilder)
    (aggregation_selector : InstrumentKind → Aggregation)
    (temporality_selector : InstrumentKind → Temporality) :
    Except MetricsError MetricsExporter :=
  .ok (MetricsExporter.new self.resolvedClient temporality_selector aggregation_selector)

/-- `MetricsExporterBuilder` (`metric.rs` lines 66-78) as compiled with the
`grpc-tonic` and `http-proto` features: the Tonic and Http variants. -/
inductive MetricsExporterBuilder where
  | Tonic (builder : TonicExporterBuilder)
  | Http (builder : HttpExporterBuilder)

/-- `MetricsExporterBuilder` (`metric.rs` lines 66-78) as compiled with
neither the `grpc-tonic` nor the `http-proto` feature: only the hidden
`Unconfigured` variant exists. -/
inductive MetricsExporterBuilderNoTransport where
  | Unconfigured
  deriving DecidableEq, Repr

/-- `MetricsExporterBuilder::build_metrics_exporter` (`metric.rs` lines
82-105) with transports compiled in: dispatches to the variant's builder
(note the argument order swap at the call sites). -/
def MetricsExporterBuilder.build_metrics_exporter (self : MetricsExporterBuilder)
    (temporality_selector : InstrumentKind → Temporality)
    (aggregation_selector : InstrumentKind → Aggregation) :
    Except MetricsError MetricsExporter :=
  match self with
  | .Tonic builder =>
      builder.build_metrics_exporter aggregation_selector temporality_selector
  | .Http builder =>
      builder.build_metrics_exporter aggregation_selector temporality_selector

/-- `MetricsExporterBuilder::build_metrics_exporter` (`metric.rs` lines
82-105) with no transport compiled in: drops both selectors and returns the
configuration error. -/
def MetricsExporterBuilderNoTransport.build_metrics_exporter
    (self : MetricsExporterBuilderNoTransport)
    (_temporality_selector : InstrumentKind → Temporality)
    (_aggregation_selector : InstrumentKind → Aggregation) :
    Except MetricsError MetricsExporter :=
  match self with
  | .Unconfigured =>
      .error (.Other "no configured metrics exporter, enable `http-proto` or `grpc-tonic` feature to configure a metrics exporter")

/-- `OtlpMetricPipeline<RT, EB>` (`metric.rs` lines 126-134). -/
structure OtlpMetricPipeline (RT EB : Type) where
  rt : RT
  aggregator_selector : Option (InstrumentKind → Aggregation)
  temporality_selector : Option (InstrumentKind → Temporality)
  exporter_pipeline : EB
  resource : Option Resource
  period : Option Nat
  timeout : Option Nat

/-- `OtlpPipeline::metrics` (`metric.rs` lines 45-61): starts a metric
pipeline in the `NoExporterConfig` state with every option unset. -/
def OtlpPipeline.metrics (_self : OtlpPipeline) {RT : Type} (rt : RT) :
    OtlpMetricPipeline RT NoExporterConfig :=
  { rt := rt
    aggregator_selector := none
    temporality_selector := none
    exporter_pipeline := {}
    resource := none
    period := none
    timeout := none }

/-- `OtlpMetricPipeline::with_resource` (`metric.rs` lines 141-146). -/
def OtlpMetricPipeline.with_resource {RT EB : Type}
    (self : OtlpMetricPipeline RT EB) (resource : Resource) :
    OtlpMetricPipeline RT EB :=
  { self with resource := some resource }

/-- `OtlpMetricPipeline::with_timeout` (`metric.rs` lines 149-154). -/
def OtlpMetricPipeline.with_timeout {RT EB : Type}
    (self : OtlpMetricPipeline RT EB) (timeout : Nat) :
    OtlpMetricPipeline RT EB :=
  { self with timeout := some timeout }

/-- `OtlpMetricPipeline::with_period` (`metric.rs` lines 157-162). -/
def OtlpMetricPipeline.with_period {RT EB : Type}
    (self : OtlpMetricPipeline RT EB) (period : Nat) :
    OtlpMetricPipeline RT EB :=
  { self with period := some period }

/-- `OtlpMetricPipeline::with_temporality_selector` (`metric.rs` lines
165-170). -/
def OtlpMetricPipeline.with_temporality_selector {RT EB : Type}
    (self : OtlpMetricPipeline RT EB)
    (selector : InstrumentKind → Temporality) : OtlpMetricPipeline RT EB :=
  { self with temporality_selector := some selector }

/-- `OtlpMetricPipeline::with_delta_temporality` (`metric.rs` lines
178-180). -/
def OtlpMetricPipeline.with_delta_temporality {RT EB : Type}
    (self : OtlpMetricPipeline RT EB) : OtlpMetricPipeline RT EB :=
  self.with_temporality_selector (DeltaTemporalitySelector.mk.temporality)

/-- `OtlpMetricPipeline::with_aggregation_selector` (`metric.rs` lines
183-188). -/
def OtlpMetricPipeline.with_aggregation_selector {RT EB : Type}
    (self : OtlpMetricPipeline RT EB)
    (selector : InstrumentKind → Aggregation) : OtlpMetricPipeline RT EB :=
  { self with aggregator_selector := some selector }

/-- `OtlpMetricPipeline::with_exporter` (`metric.rs` lines 196-209): the
typestate transition `NoExporterConfig → MetricsExporterBuilder`; every
accumulated field is carried over unchanged. -/
def OtlpMetricPipeline.with_exporter {RT : Type}
    (self : OtlpMetricPipeline RT NoExporterConfig)
    (pipeline : MetricsExporterBuilder) :
    OtlpMetricPipeline RT MetricsExporterBuilder :=
  { exporter_pipeline := pipeline
    rt := self.rt
    aggregator_selector := self.aggregator_selector
    temporality_selector := self.temporality_selector
    resource := self.resource
    period := self.period
    timeout := self.timeout }

/-- Modelled from the spec: `PeriodicReader::builder(exporter, rt)` (SDK,
not under `src/`): accumulates the exporter, the runtime, and interval /
timeout with defaults (period about 60s; timeout default unspecified by
the spec, fixed here at 30s — no claim depends on the values). -/
structure PeriodicReaderBuilder (RT : Type) where
  exporter : MetricsExporter
  rt : RT
  interval : Nat := 60000
  timeout : Nat := 30000

/-- Modelled from the spec: the timer-driven collector for metrics (SDK,
not under `src/`); holds the exporter and its timing configuration. -/
structure PeriodicReader (RT : Type) where
  exporter : MetricsExporter
  rt : RT
  interval : Nat
  timeout : Nat

/-- Modelled from the spec: `PeriodicReader::builder`. -/
def PeriodicReader.builder {RT : Type} (exporter : MetricsExporter) (rt : RT) :
    PeriodicReaderBuilder RT :=
  { exporter := exporter, rt := rt }

/-- Modelled from the spec: `PeriodicReaderBuilder::with_interval`. -/
def PeriodicReaderBuilder.with_interval {RT : Type}
    (self : PeriodicReaderBuilder RT) (interval : Nat) :
    PeriodicReaderBuilder RT :=
  { self with interval := interval }

/-- Modelled from the spec: `PeriodicReaderBuilder::with_timeout`. -/
def PeriodicReaderBuilder.with_timeout {RT : Type}
    (self : PeriodicReaderBuilder RT) (timeout : Nat) :
    PeriodicReaderBuilder RT :=
  { self with timeout := timeout }

/-- Modelled from the spec: `PeriodicReaderBuilder::build`. -/
def PeriodicReaderBuilder.build {RT : Type} (self : PeriodicReaderBuilder RT) :
    PeriodicReader RT :=
  { exporter := self.exporter
    rt := self.rt
    interval := self.interval
    timeout := self.timeout }

/-- Modelled from the spec: `SdkMeterProvider::builder()` (SDK, not under
`src/`): accumulates a reader and an optional resource. -/
structure SdkMeterProviderBuilder (RT : Type) where
  reader : Option (PeriodicReader RT) := none
  resource : Option Resource := none

/-- Modelled from the spec: the process-scoped owner of the reader (SDK,
not under `src/`). -/
structure SdkMeterProvider (RT : Type) where
  reader : Option (PeriodicReader RT)
  resource : Option Resource

/-- Modelled from the spec: `SdkMeterProvider::builder`. -/
def SdkMeterProvider.builder {RT : Type} : SdkMeterProviderBuilder RT := {}

/-- Modelled from the spec: `SdkMeterProviderBuilder::with_reader`. -/
def SdkMeterProviderBuilder.with_reader {RT : Type}
    (self : SdkMeterProviderBuilder RT) (reader : PeriodicReader RT) :
    SdkMeterProviderBuilder RT :=
  { self with reader := some reader }

/-- Modelled from the spec: `SdkMeterProviderBuilder::with_resource`. -/
def SdkMeterProviderBuilder.with_resource {RT : Type}
    (self : SdkMeterProviderBuilder RT) (resource : Resource) :
    SdkMeterProviderBuilder RT :=
  { self with resource := some resource }

/-- Modelled from the spec: `SdkMeterProviderBuilder::build`. -/
def SdkMeterProviderBuilder.build {RT : Type}
    (self : SdkMeterProviderBuilder RT) : SdkMeterProvider RT :=
  { reader := self.reader, resource := self.resource }

/-- `OtlpMetricPipeline::build` (`metric.rs` lines 217-244): resolves the
selectors (falling back to the defaults when unset), builds the exporter,
wires it into a `PeriodicReader` with the optional period/timeout, and
builds the provider with the optional resource. -/
def OtlpMetricPipeline.build {RT : Type}
    (self : OtlpMetricPipeline RT MetricsExporterBuilder) :
    Except MetricsError (SdkMeterProvider RT) :=
  match self.exporter_pipeline.build_metrics_exporter
      (self.temporality_selector.getD DefaultTemporalitySelector.new.temporality)
      (self.aggregator_selector.getD DefaultAggregationSelector.new.aggregation) with
  | .error e => .error e
  | .ok exporter =>
    let builder := PeriodicReader.builder exporter self.rt
    let builder := match self.period with
      | some period => builder.with_interval period
      | none => builder
    let builder := match self.timeout with
      | some timeout => builder.with_timeout timeout
      | none => builder
    let reader := builder.build
    let provider := (SdkMeterProvider.builder.with_reader reader)
    let provider := match self.resource with
      | some resource => provider.with_resource resource
      | none => provider
    .ok provider.build

/-- The SDK `LogExporter` trait (`opentelemetry-sdk/src/export/logs/mod.rs`
lines 16-32) over an implementor state `S`: `export` takes `&mut self`
(state in, state and result out); `shutdown`, `event_enabled` and
`set_resource` have the trait's default bodies unless overridden. -/
structure LogExporterImpl (S : Type) where
  exportBatch : S → List (LogRecord × InstrumentationLibrary) → S × LogResult Unit
  shutdown : S → S := fun s => s
  event_enabled : S → Severity → String → String → Bool := fun _ _ _ _ => true
  set_resource : S → Resource → S := fun s _ => s

/-- The OTLP `LogExporter` struct (`logs.rs` lines 85-89): wraps a boxed
SDK log exporter; `CS` is the wrapped client's state type. -/
structure LogExporter (CS : Type) where
  clientImpl : LogExporterImpl CS
  clientState : CS

/-- `LogExporter::new` (`logs.rs` lines 91-98). -/
def LogExporter.new {CS : Type} (clientImpl : LogExporterImpl CS)
    (clientState : CS) : LogExporter CS :=
  { clientImpl := clientImpl, clientState := clientState }

/-- `impl opentelemetry_sdk::export::logs::LogExporter for LogExporter`
(`logs.rs` lines 100-113): only `export` and `set_resource` are defined
(forwarding to the client); `shutdown` and `event_enabled` fall back to
the trait defaults. -/
def LogExporter.traitImpl (CS : Type) : LogExporterImpl (LogExporter CS) :=
  { exportBatch := fun self batch =>
      let (clientState, result) := self.clientImpl.exportBatch self.clientState batch
      ({ self with clientState := clientState }, result)
    set_resource := fun self resource =>
      { self with clientState := self.clientImpl.set_resource self.clientState resource } }

/-- Modelled from the spec: the transport client a transport exporter
builder resolves to (not under `src/`); network behavior is out of scope,
the export call completes with `Ok(())`. -/
def transportLogClientImpl : LogExporterImpl Unit :=
  { exportBatch := fun s _ => (s, .ok ()) }

/-- `LogExporterBuilder` (`logs.rs` lines 50-57): the Tonic and Http
variants (both transport features compiled in). -/
inductive LogExporterBuilder where
  | Tonic (builder : TonicExporterBuilder)
  | Http (builder : HttpExporterBuilder)

/-- Modelled from the spec: `TonicExporterBuilder::build_log_exporter`
(not under `src/`) resolves the transport client into the OTLP wrapper. -/
def TonicExporterBuilder.build_log_exporter (_self : TonicExporterBuilder) :
    Except LogError (LogExporter Unit) :=
  .ok (LogExporter.new transportLogClientImpl ())

/-- Modelled from the spec: `HttpExporterBuilder::build_log_exporter`
(not under `src/`). -/
def HttpExporterBuilder.build_log_exporter (_self : HttpExporterBuilder) :
    Except LogError (LogExporter Unit) :=
  .ok (LogExporter.new transportLogClientImpl ())

/-- `LogExporterBuilder::build_log_exporter` (`logs.rs` lines 59-68). -/
def LogExporterBuilder.build_log_exporter (self : LogExporterBuilder) :
    Except LogError (LogExporter Unit) :=
  match self with
  | .Tonic builder => builder.build_log_exporter
  | .Http builder => builder.build_log_exporter

/-- Modelled from the spec: the SDK `BatchConfig::default()` (not under
`src/`); the concrete values are not relied on by any claim. -/
def BatchConfig.default : BatchConfig :=
  { max_queue_size := 2048
    scheduled_delay := 1000
    max_export_batch_size := 512
    max_export_timeout := 30000 }

/-- Modelled from the spec: the `LoggerProvider` produced by install,
recording the wired resource and processor (SDK internals are not under
`src/`). -/
structure LoggerProvider where
  resource : Option Resource
  simpleExporter : Option (LogExporter Unit)
  batchProcessor : Option (LogExporter Unit × BatchConfig)

/-- `build_simple_with_exporter` (`logs.rs` lines 185-197): wires the
exporter as a simple (synchronous) processor plus the optional resource. -/
def build_simple_with_exporter (exporter : LogExporter Unit)
    (resource : Option Resource) : LoggerProvider :=
  { resource := resource
    simpleExporter := some exporter
    batchProcessor := none }

/-- `build_batch_with_exporter` (`logs.rs` lines 199-216): wires a batch
processor with `batch_config.unwrap_or_default()` plus the optional
resource. -/
def build_batch_with_exporter {R : Type} (exporter : LogExporter Unit)
    (resource : Option Resource) (_runtime : R)
    (batch_config : Option BatchConfig) : LoggerProvider :=
  { resource := resource
    simpleExporter := none
    batchProcessor := some (exporter, batch_config.getD BatchConfig.default) }

/-- `OtlpLogPipeline<EB>` (`logs.rs` lines 117-121). -/
structure OtlpLogPipeline (EB : Type) where
  exporter_builder : EB
  resource : Option Resource
  batch_config : Option BatchConfig

/-- `OtlpPipeline::logging` (`logs.rs` lines 35-44): starts a log pipeline
in the `NoExporterConfig` state with every option unset. -/
def OtlpPipeline.logging (_self : OtlpPipeline) :
    OtlpLogPipeline NoExporterConfig :=
  { resource := none
    exporter_builder := {}
    batch_config := none }

/-- `OtlpLogPipeline::with_resource` (`logs.rs` lines 125-130). -/
def OtlpLogPipeline.with_resource {EB : Type} (self : OtlpLogPipeline EB)
    (resource : Resource) : OtlpLogPipeline EB :=
  { self with resource := some resource }

/-- `OtlpLogPipeline::with_batch_config` (`logs.rs` lines 133-136). -/
def OtlpLogPipeline.with_batch_config {EB : Type} (self : OtlpLogPipeline EB)
    (batch_config : BatchConfig) : OtlpLogPipeline EB :=
  { self with batch_config := some batch_config }

/-- `OtlpLogPipeline::with_exporter` (`logs.rs` lines 141-150): the
typestate transition `NoExporterConfig → LogExporterBuilder`; the
accumulated resource and batch config are carried over. -/
def OtlpLogPipeline.with_exporter
    (self : OtlpLogPipeline NoExporterConfig)
    (pipeline : LogExporterBuilder) : OtlpLogPipeline LogExporterBuilder :=
  { exporter_builder := pipeline
    resource := self.resource
    batch_config := self.batch_config }

/-- `OtlpLogPipeline::install_simple` (`logs.rs` lines 159-164): defined
only on the `LogExporterBuilder` (exporter-configured) state. -/
def OtlpLogPipeline.install_simple
    (self : OtlpLogPipeline LogExporterBuilder) :
    Except LogError LoggerProvider :=
  (self.exporter_builder.build_log_exporter).map
    (fun exporter => build_simple_with_exporter exporter self.resource)

/-- `OtlpLogPipeline::install_batch` (`logs.rs` lines 172-182): defined
only on the `LogExporterBuilder` (exporter-configured) state. -/
def OtlpLogPipeline.install_batch {R : Type}
    (self : OtlpLogPipeline LogExporterBuilder) (runtime : R) :
    Except LogError LoggerProvider :=
  (self.exporter_builder.build_log_exporter).map
    (fun exporter =>
      build_batch_with_exporter exporter self.resource runtime self.batch_config)

/-- `NoOpExporterWithFuture` (`benches/log_exporter.rs` lines 43-55): its
`export` returns an already-ready future of `()` and touches nothing. The
future-returning method is embedded as state in, (state, value) out. -/
structure NoOpExporterWithFuture where
  deriving DecidableEq, Repr

/-- `LogExporterWithFuture::export` for `NoOpExporterWithFuture`
(`benches/log_exporter.rs` lines 48-55). -/
def NoOpExporterWithFuture.exportBatch (self : NoOpExporterWithFuture)
    (_batch : List (LogRecord × InstrumentationLibrary)) :
    NoOpExporterWithFuture × Unit :=
  (self, ())

/-- `NoOpExporterWithoutFuture` (`benches/log_exporter.rs` lines 57-61):
its `export` is directly a no-op. -/
structure NoOpExporterWithoutFuture where
  deriving DecidableEq, Repr

/-- `LogExporterWithoutFuture::export` for `NoOpExporterWithoutFuture`
(`benches/log_exporter.rs` lines 59-61). -/
def NoOpExporterWithoutFuture.exportBatch (self : NoOpExporterWithoutFuture)
    (_batch : List (LogRecord × InstrumentationLibrary)) :
    NoOpExporterWithoutFuture :=
  self

/-- `ExportingProcessorWithFuture` (`benches/log_exporter.rs` lines 63-74):
holds the exporter behind a mutex; the mutex contents are the state. -/
structure ExportingProcessorWithFuture where
  exporter : NoOpExporterWithFuture
  deriving DecidableEq, Repr

/-- `ExportingProcessorWithFuture::new` (`benches/log_exporter.rs` lines
68-74). -/
def ExportingProcessorWithFuture.new (exporter : NoOpExporterWithFuture) :
    ExportingProcessorWithFuture :=
  { exporter := exporter }

/-- `LogProcessor::emit` for `ExportingProcessorWithFuture`
(`benches/log_exporter.rs` lines 78-85): locks the exporter, obtains the
export future for the one-record batch, and awaits it. -/
def ExportingProcessorWithFuture.emit (self : ExportingProcessorWithFuture)
    (record : LogRecord) (library : InstrumentationLibrary) :
    ExportingProcessorWithFuture × Unit :=
  let (exporter, u) := self.exporter.exportBatch [(record, library)]
  ({ exporter := exporter }, u)

/-- `LogProcessor::force_flush` for `ExportingProcessorWithFuture`
(`benches/log_exporter.rs` lines 87-89). -/
def ExportingProcessorWithFuture.force_flush
    (_self : ExportingProcessorWithFuture) : LogResult Unit :=
  .ok ()

/-- `LogProcessor::shutdown` for `ExportingProcessorWithFuture`
(`benches/log_exporter.rs` lines 91-93). -/
def ExportingProcessorWithFuture.shutdown
    (_self : ExportingProcessorWithFuture) : LogResult Unit :=
  .ok ()

/-- `ExportingProcessorWithoutFuture` (`benches/log_exporter.rs` lines
96-107). -/
structure ExportingProcessorWithoutFuture where
  exporter : NoOpExporterWithoutFuture
  deriving DecidableEq, Repr

/-- `ExportingProcessorWithoutFuture::new` (`benches/log_exporter.rs`
lines 101-107). -/
def ExportingProcessorWithoutFuture.new (exporter : NoOpExporterWithoutFuture) :
    ExportingProcessorWithoutFuture :=
  { exporter := exporter }

/-- `LogProcessor::emit` for `ExportingProcessorWithoutFuture`
(`benches/log_exporter.rs` lines 111-116): locks the exporter and calls
the directly asynchronous export on the one-record batch. -/
def ExportingProcessorWithoutFuture.emit
    (self : ExportingProcessorWithoutFuture) (record : LogRecord)
    (library : InstrumentationLibrary) :
    ExportingProcessorWithoutFuture × Unit :=
  ({ exporter := self.exporter.exportBatch [(record, library)] }, ())

/-- `LogProcessor::force_flush` for `ExportingProcessorWithoutFuture`
(`benches/log_exporter.rs` lines 118-120). -/
def ExportingProcessorWithoutFuture.force_flush
    (_self : ExportingProcessorWithoutFuture) : LogResult Unit :=
  .ok ()

/-- `LogProcessor::shutdown` for `ExportingProcessorWithoutFuture`
(`benches/log_exporter.rs` lines 122-124). -/
def ExportingProcessorWithoutFuture.shutdown
    (_self : ExportingProcessorWithoutFuture) : LogResult Unit :=
  .ok ()

/-- The two typestates of the log pipeline, as a sum so that reachability
by builder calls can be stated: `noExp` is `OtlpLogPipeline<NoExporterConfig>`,
`configured` is `OtlpLogPipeline<LogExporterBuilder>`. -/
inductive LogPipeState where
  | noExp (p : OtlpLogPipeline NoExporterConfig)
  | configured (p : OtlpLogPipeline LogExporterBuilder)

/-- `with_resource` acts in both typestates (`impl<EB> OtlpLogPipeline<EB>`). -/
def LogPipeState.with_resource (s : LogPipeState) (resource : Resource) :
    LogPipeState :=
  match s with
  | .noExp p => .noExp (p.with_resource resource)
  | .configured p => .configured (p.with_resource resource)

/-- `with_batch_config` acts in both typestates. -/
def LogPipeState.with_batch_config (s : LogPipeState) (cfg : BatchConfig) :
    LogPipeState :=
  match s with
  | .noExp p => .noExp (p.with_batch_config cfg)
  | .configured p => .configured (p.with_batch_config cfg)

/-- `install_simple`/`install_batch` are callable exactly in the
`configured` typestate. -/
def LogPipeState.canInstall : LogPipeState → Bool
  | .noExp _ => false
  | .configured _ => true

/-- Log pipeline states reachable from `OtlpPipeline::logging()` using
every builder operation except `with_exporter`. -/
inductive LogReachableNoExporter : LogPipeState → Prop where
  | start : LogReachableNoExporter (.noExp (OtlpPipeline.mk.logging))
  | withResource (s : LogPipeState) (resource : Resource) :
      LogReachableNoExporter s →
      LogReachableNoExporter (s.with_resource resource)
  | withBatchConfig (s : LogPipeState) (cfg : BatchConfig) :
      LogReachableNoExporter s →
      LogReachableNoExporter (s.with_batch_config cfg)

/-- The two typestates of the metric pipeline. -/
inductive MetricPipeState (RT : Type) where
  | noExp (p : OtlpMetricPipeline RT NoExporterConfig)
  | configured (p : OtlpMetricPipeline RT MetricsExporterBuilder)

/-- `with_resource` acts in both typestates (`impl<RT, EB>`). -/
def MetricPipeState.with_resource {RT : Type} (s : MetricPipeState RT)
    (resource : Resource) : MetricPipeState RT :=
  match s with
  | .noExp p => .noExp (p.with_resource resource)
  | .configured p => .configured (p.with_resource resource)

/-- `with_timeout` acts in both typestates. -/
def MetricPipeState.with_timeout {RT : Type} (s : MetricPipeState RT)
    (timeout : Nat) : MetricPipeState RT :=
  match s with
  | .noExp p => .noExp (p.with_timeout timeout)
  | .configured p => .configured (p.with_timeout timeout)

/-- `with_period` acts in both typestates. -/
def MetricPipeState.with_period {RT : Type} (s : MetricPipeState RT)
    (period : Nat) : MetricPipeState RT :=
  match s with
  | .noExp p => .noExp (p.with_period period)
  | .configured p => .configured (p.with_period period)

/-- `with_temporality_selector` acts in both typestates. -/
def MetricPipeState.with_temporality_selector {RT : Type}
    (s : MetricPipeState RT) (selector : InstrumentKind → Temporality) :
    MetricPipeState RT :=
  match s with
  | .noExp p => .noExp (p.with_temporality_selector selector)
  | .configured p => .configured (p.with_temporality_selector selector)

/-- `with_delta_temporality` acts in both typestates. -/
def MetricPipeState.with_delta_temporality {RT : Type}
    (s : MetricPipeState RT) : MetricPipeState RT :=
  match s with
  | .noExp p => .noExp p.with_delta_temporality
  | .configured p => .configured p.with_delta_temporality

/-- `with_aggregation_selector` acts in both typestates. -/
def MetricPipeState.with_aggregation_selector {RT : Type}
    (s : MetricPipeState RT) (selector : InstrumentKind → Aggregation) :
    MetricPipeState RT :=
  match s with
  | .noExp p => .noExp (p.with_aggregation_selector selector)
  | .configured p => .configured (p.with_aggregation_selector selector)

/-- `build` is callable exactly in the `configured` typestate. -/
def MetricPipeState.canBuild {RT : Type} : MetricPipeState RT → Bool
  | .noExp _ => false
  | .configured _ => true

/-- Metric pipeline states reachable from `OtlpPipeline::metrics(rt)`
using every builder operation except `with_exporter`. -/
inductive MetricReachableNoExporter {RT : Type} : MetricPipeState RT → Prop where
  | start (rt : RT) : MetricReachableNoExporter (.noExp (OtlpPipeline.mk.metrics rt))
  | withResource (s : MetricPipeState RT) (resource : Resource) :
      MetricReachableNoExporter s →
      MetricReachableNoExporter (s.with_resource resource)
  | withTimeout (s : MetricPipeState RT) (timeout : Nat) :
      MetricReachableNoExporter s →
      MetricReachableNoExporter (s.with_timeout timeout)
  | withPeriod (s : MetricPipeState RT) (period : Nat) :
      MetricReachableNoExporter s →
      MetricReachableNoExporter (s.with_period period)
  | withTemporalitySelector (s : MetricPipeState RT)
      (selector : InstrumentKind → Temporality) :
      MetricReachableNoExporter s →
      MetricReachableNoExporter (s.with_temporality_selector selector)
  | withDeltaTemporality (s : MetricPipeState RT) :
      MetricReachableNoExporter s →
      MetricReachableNoExporter s.with_delta_temporality
  | withAggregationSelector (s : MetricPipeState RT)
      (selector : InstrumentKind → Aggregation) :
      MetricReachableNoExporter s →
      MetricReachableNoExporter (s.with_aggregation_selector selector)

/-- A concrete client whose calls all succeed, for instantiating the
exporter theorems. -/
def sampleClient : MetricsClient :=
  { exportFn := fun _ => .ok ()
    shutdownFn := fun _ => .ok () }

/-- A concrete `MetricsExporter` with fixed composed selectors. -/
def sampleMetricsExporter : MetricsExporter :=
  MetricsExporter.new sampleClient
    DefaultTemporalitySelector.new.temporality
    DefaultAggregationSelector.new.aggregation

/-- A concrete configured metric pipeline with no selector supplied. -/
def samplePipelineNoSelectors : OtlpMetricPipeline Unit MetricsExporterBuilder :=
  { rt := ()
    aggregator_selector := none
    temporality_selector := none
    exporter_pipeline := .Tonic { resolvedClient := sampleClient }
    resource := none
    period := none
    timeout := none }

/-- A concrete configured metric pipeline with both selectors supplied. -/
def samplePipelineWithSelectors : OtlpMetricPipeline Unit MetricsExporterBuilder :=
  { rt := ()
    aggregator_selector := some (DefaultAggregationSelector.new.aggregation)
    temporality_selector := some (DeltaTemporalitySelector.mk.temporality)
    exporter_pipeline := .Http { resolvedClient := sampleClient }
    resource := some { attrs := [("service.name", "demo")] }
    period := some 100
    timeout := some 500 }

/-- C1: for every `InstrumentKind` variant the built-in Delta temporality
selector returns a defined value; it returns `Delta` for Counter,
Histogram, ObservableCounter, Gauge and ObservableGauge, and `Cumulative`
for UpDownCounter and ObservableUpDownCounter. -/
theorem delta_temporality_total_and_values :
    (∀ kind : InstrumentKind,
      DeltaTemporalitySelector.mk.temporality kind = .Delta ∨
      DeltaTemporalitySelector.mk.temporality kind = .Cumulative) ∧
    DeltaTemporalitySelector.mk.temporality .Counter = .Delta ∧
    DeltaTemporalitySelector.mk.temporality .Histogram = .Delta ∧
    DeltaTemporalitySelector.mk.temporality .ObservableCounter = .Delta ∧
    DeltaTemporalitySelector.mk.temporality .Gauge = .Delta ∧
    DeltaTemporalitySelector.mk.temporality .ObservableGauge = .Delta ∧
    DeltaTemporalitySelector.mk.temporality .UpDownCounter = .Cumulative ∧
    DeltaTemporalitySelector.mk.temporality .ObservableUpDownCounter = .Cumulative :=
  ⟨fun kind => by cases kind <;> first | exact .inl rfl | exact .inr rfl,
   rfl, rfl, rfl, rfl, rfl, rfl, rfl⟩

/-- C3: with no transport compiled in, building a metrics exporter from
the `Unconfigured` variant returns the configuration error carrying the
"no configured metrics exporter" message, for every pair of selectors, and
the build function is total (never panics); the error is produced by the
synchronous build call itself, no client or export is involved. -/
theorem unconfigured_build_metrics_exporter_errors :
    ∀ (b : MetricsExporterBuilderNoTransport)
      (temporalitySel : InstrumentKind → Temporality)
      (aggregationSel : InstrumentKind → Aggregation),
      b.build_metrics_exporter temporalitySel aggregationSel =
        .error (.Other "no configured metrics exporter, enable `http-proto` or `grpc-tonic` feature to configure a metrics exporter") :=
  fun b _ _ => match b with
  | .Unconfigured => rfl

/-- C8: the future-returning and the directly asynchronous exporter styles
are behaviourally equivalent over the no-op exporters: for every record
and scope, both processors' `emit` leaves the processor unchanged and
returns `()`, and `force_flush` and `shutdown` of both return `Ok(())`. -/
theorem exporting_processors_equivalent :
    ∀ (pf : ExportingProcessorWithFuture)
      (pw : ExportingProcessorWithoutFuture)
      (record : LogRecord) (library : InstrumentationLibrary),
      pf.emit record library = (pf, ()) ∧
      pw.emit record library = (pw, ()) ∧
      pf.force_flush = .ok () ∧
      pf.shutdown = .ok () ∧
      pw.force_flush = .ok () ∧
      pw.shutdown = .ok () :=
  fun _ _ _ _ => ⟨rfl, rfl, rfl, rfl, rfl, rfl⟩

/-- C9: the `LogExporter` trait's default `event_enabled` returns `true`
for every severity, target and name: an implementor that overrides only
`export` filters nothing. -/
theorem default_event_enabled_always_true :
    ∀ (S : Type)
      (e : S → List (LogRecord × InstrumentationLibrary) → S × LogResult Unit)
      (s : S) (sev : Severity) (target name : String),
      (({ exportBatch := e } : LogExporterImpl S)).event_enabled s sev target name = true :=
  fun _ _ _ _ _ _ => rfl

/-- C10: `MetricsExporter::force_flush` returns `Ok(())` for every
exporter, and its result does not depend on the exporter's client or
selectors (it performs no export and reads no state). -/
theorem metrics_exporter_force_flush_ok :
    ∀ (e₁ e₂ : MetricsExporter),
      e₁.force_flush = .ok () ∧ e₁.force_flush = e₂.force_flush :=
  fun _ _ => ⟨rfl, rfl⟩

/-- C4: the OTLP `LogExporter` wrapper's `shutdown` is the trait default
no-op: it leaves the wrapper (including the wrapped client's state)
unchanged for every wrapper, even when the client's own `shutdown` is
replaced by an arbitrary state transformer — so the client's `shutdown` is
never invoked — while `export` and `set_resource` are forwarded to the
client and `event_enabled` stays the trait default `true`. -/
theorem otlp_log_exporter_shutdown_noop :
    ∀ (CS : Type) (w : LogExporter CS) (f : CS → CS),
      (LogExporter.traitImpl CS).shutdown w = w ∧
      (LogExporter.traitImpl CS).shutdown
          { w with clientImpl := { w.clientImpl with shutdown := f } } =
        { w with clientImpl := { w.clientImpl with shutdown := f } } ∧
      (∀ batch, (LogExporter.traitImpl CS).exportBatch w batch =
        ({ w with clientState := (w.clientImpl.exportBatch w.clientState batch).1 },
         (w.clientImpl.exportBatch w.clientState batch).2)) ∧
      (∀ resource, (LogExporter.traitImpl CS).set_resource w resource =
        { w with clientState := w.clientImpl.set_resource w.clientState resource }) ∧
      (∀ (sev : Severity) (target name : String),
        (LogExporter.traitImpl CS).event_enabled w sev target name = true) := by
  intro CS w f
  refine ⟨rfl, rfl, ?_, fun _ => rfl, fun _ _ _ => rfl⟩
  intro batch
  show (let p := w.clientImpl.exportBatch w.clientState batch
        ({ w with clientState := p.1 }, p.2)) = _
  rfl

/-- C5: the Delta selector and the `MetricsExporter`'s delegating
temporality/aggregation methods are pure, deterministic, total functions
of the instrument kind: equal kinds give equal results, every kind has a
defined value, and the exporter's methods return exactly what the fixed
composed selectors return, touching no other state. -/
theorem selectors_pure_deterministic_total :
    ∀ (sel : DeltaTemporalitySelector) (e : MetricsExporter)
      (k k' : InstrumentKind), k = k' →
      sel.temporality k = sel.temporality k' ∧
      (sel.temporality k = .Delta ∨ sel.temporality k = .Cumulative) ∧
      e.temporality k = e.temporality k' ∧
      e.temporality k = e.temporality_selector k ∧
      e.aggregation k = e.aggregation_selector k := by
  intro sel e k k' h
  subst h
  refine ⟨rfl, ?_, rfl, rfl, rfl⟩
  cases sel
  cases k <;> first | exact .inl rfl | exact .inr rfl

/-- Witness for C5 at `Counter` and the sample exporter. -/
theorem selectors_pure_deterministic_total_witness :
    DeltaTemporalitySelector.mk.temporality .Counter =
      DeltaTemporalitySelector.mk.temporality .Counter ∧
    (DeltaTemporalitySelector.mk.temporality .Counter = .Delta ∨
      DeltaTemporalitySelector.mk.temporality .Counter = .Cumulative) ∧
    sampleMetricsExporter.temporality .Counter =
      sampleMetricsExporter.temporality .Counter ∧
    sampleMetricsExporter.temporality .Counter =
      sampleMetricsExporter.temporality_selector .Counter ∧
    sampleMetricsExporter.aggregation .Counter =
      sampleMetricsExporter.aggregation_selector .Counter :=
  selectors_pure_deterministic_total DeltaTemporalitySelector.mk
    sampleMetricsExporter .Counter .Counter rfl

/-- C6: every builder configuration operation changes only its own field
and preserves all the others, on both pipelines; `with_exporter` sets the
exporter builder and carries every accumulated field over unchanged. -/
theorem builder_setters_frame :
    (∀ (EB : Type) (p : OtlpLogPipeline EB) (r : Resource),
      (p.with_resource r).resource = some r ∧
      (p.with_resource r).exporter_builder = p.exporter_builder ∧
      (p.with_resource r).batch_config = p.batch_config) ∧
    (∀ (EB : Type) (p : OtlpLogPipeline EB) (c : BatchConfig),
      (p.with_batch_config c).batch_config = some c ∧
      (p.with_batch_config c).exporter_builder = p.exporter_builder ∧
      (p.with_batch_config c).resource = p.resource) ∧
    (∀ (p : OtlpLogPipeline NoExporterConfig) (b : LogExporterBuilder),
      (p.with_exporter b).exporter_builder = b ∧
      (p.with_exporter b).resource = p.resource ∧
      (p.with_exporter b).batch_config = p.batch_config) ∧
    (∀ (RT EB : Type) (p : OtlpMetricPipeline RT EB) (r : Resource),
      (p.with_resource r).resource = some r ∧
      (p.with_resource r).rt = p.rt ∧
      (p.with_resource r).aggregator_selector = p.aggregator_selector ∧
      (p.with_resource r).temporality_selector = p.temporality_selector ∧
      (p.with_resource r).exporter_pipeline = p.exporter_pipeline ∧
      (p.with_resource r).period = p.period ∧
      (p.with_resource r).timeout = p.timeout) ∧
    (∀ (RT EB : Type) (p : OtlpMetricPipeline RT EB) (t : Nat),
      (p.with_timeout t).timeout = some t ∧
      (p.with_timeout t).rt = p.rt ∧
      (p.with_timeout t).aggregator_selector = p.aggregator_selector ∧
      (p.with_timeout t).temporality_selector = p.temporality_selector ∧
      (p.with_timeout t).exporter_pipeline = p.exporter_pipeline ∧
      (p.with_timeout t).resource = p.resource ∧
      (p.with_timeout t).period = p.period) ∧
    (∀ (RT EB : Type) (p : OtlpMetricPipeline RT EB) (per : Nat),
      (p.with_period per).period = some per ∧
      (p.with_period per).rt = p.rt ∧
      (p.with_period per).aggregator_selector = p.aggregator_selector ∧
      (p.with_period per).temporality_selector = p.temporality_selector ∧
      (p.with_period per).exporter_pipeline = p.exporter_pipeline ∧
      (p.with_period per).resource = p.resource ∧
      (p.with_period per).timeout = p.timeout) ∧
    (∀ (RT EB : Type) (p : OtlpMetricPipeline RT EB)
      (sel : InstrumentKind → Temporality),
      (p.with_temporality_selector sel).temporality_selector = some sel ∧
      (p.with_temporality_selector sel).rt = p.rt ∧
      (p.with_temporality_selector sel).aggregator_selector = p.aggregator_selector ∧
      (p.with_temporality_selector sel).exporter_pipeline = p.exporter_pipeline ∧
      (p.with_temporality_selector sel).resource = p.resource ∧
      (p.with_temporality_selector sel).period = p.period ∧
      (p.with_temporality_selector sel).timeout = p.timeout) ∧
    (∀ (RT EB : Type) (p : OtlpMetricPipeline RT EB)
      (sel : InstrumentKind → Aggregation),
      (p.with_aggregation_selector sel).aggregator_selector = some sel ∧
      (p.with_aggregation_selector sel).rt = p.rt ∧
      (p.with_aggregation_selector sel).temporality_selector = p.temporality_selector ∧
      (p.with_aggregation_selector sel).exporter_pipeline = p.exporter_pipeline ∧
      (p.with_aggregation_selector sel).resource = p.resource ∧
      (p.with_aggregation_selector sel).period = p.period ∧
      (p.with_aggregation_selector sel).timeout = p.timeout) ∧
    (∀ (RT : Type) (p : OtlpMetricPipeline RT NoExporterConfig)
      (b : MetricsExporterBuilder),
      (p.with_exporter b).exporter_pipeline = b ∧
      (p.with_exporter b).rt = p.rt ∧
      (p.with_exporter b).aggregator_selector = p.aggregator_selector ∧
      (p.with_exporter b).temporality_selector = p.temporality_selector ∧
      (p.with_exporter b).resource = p.resource ∧
      (p.with_exporter b).period = p.period ∧
      (p.with_exporter b).timeout = p.timeout) :=
  ⟨fun _ _ _ => ⟨rfl, rfl, rfl⟩,
   fun _ _ _ => ⟨rfl, rfl, rfl⟩,
   fun _ _ => ⟨rfl, rfl, rfl⟩,
   fun _ _ _ _ => ⟨rfl, rfl, rfl, rfl, rfl, rfl, rfl⟩,
   fun _ _ _ _ => ⟨rfl, rfl, rfl, rfl, rfl, rfl, rfl⟩,
   fun _ _ _ _ => ⟨rfl, rfl, rfl, rfl, rfl, rfl, rfl⟩,
   fun _ _ _ _ => ⟨rfl, rfl, rfl, rfl, rfl, rfl, rfl⟩,
   fun _ _ _ _ => ⟨rfl, rfl, rfl, rfl, rfl, rfl, rfl⟩,
   fun _ _ _ => ⟨rfl, rfl, rfl, rfl, rfl, rfl, rfl⟩⟩

/-- Every log pipeline state reachable without `with_exporter` is still in
the `NoExporterConfig` typestate. -/
theorem logReachableNoExporter_isNoExp (s : LogPipeState)
    (h : LogReachableNoExporter s) :
    ∃ p, s = .noExp p := by
  induction h with
  | start => exact ⟨_, rfl⟩
  | withResource s r _ ih =>
      obtain ⟨p, rfl⟩ := ih
      exact ⟨_, rfl⟩
  | withBatchConfig s c _ ih =>
      obtain ⟨p, rfl⟩ := ih
      exact ⟨_, rfl⟩

/-- Every metric pipeline state reachable without `with_exporter` is still
in the `NoExporterConfig` typestate. -/
theorem metricReachableNoExporter_isNoExp {RT : Type} (s : MetricPipeState RT)
    (h : MetricReachableNoExporter s) :
    ∃ p, s = .noExp p := by
  induction h with
  | start rt => exact ⟨_, rfl⟩
  | withResource s r _ ih =>
      obtain ⟨p, rfl⟩ := ih
      exact ⟨_, rfl⟩
  | withTimeout s t _ ih =>
      obtain ⟨p, rfl⟩ := ih
      exact ⟨_, rfl⟩
  | withPeriod s per _ ih =>
      obtain ⟨p, rfl⟩ := ih
      exact ⟨_, rfl⟩
  | withTemporalitySelector s sel _ ih =>
      obtain ⟨p, rfl⟩ := ih
      exact ⟨_, rfl⟩
  | withDeltaTemporality s _ ih =>
      obtain ⟨p, rfl⟩ := ih
      exact ⟨_, rfl⟩
  | withAggregationSelector s sel _ ih =>
      obtain ⟨p, rfl⟩ := ih
      exact ⟨_, rfl⟩

/-- C2: no pipeline on which install/build is callable exists unless
`with_exporter` was called: every log pipeline state reachable from
`OtlpPipeline::logging()` and every metric pipeline state reachable from
`OtlpPipeline::metrics(rt)` by the builder operations other than
`with_exporter` stays in the `NoExporterConfig` typestate, on which
`install_simple`/`install_batch`/`build` are not defined. -/
theorem install_unreachable_without_exporter {RT : Type}
    (s : LogPipeState) (t : MetricPipeState RT)
    (hs : LogReachableNoExporter s) (ht : MetricReachableNoExporter t) :
    s.canInstall = false ∧ t.canBuild = false := by
  obtain ⟨p, rfl⟩ := logReachableNoExporter_isNoExp s hs
  obtain ⟨q, rfl⟩ := metricReachableNoExporter_isNoExp t ht
  exact ⟨rfl, rfl⟩

/-- Witness for C2: a log pipeline given a resource and a batch config but
no exporter, and a metric pipeline given a period but no exporter, cannot
install. -/
theorem install_unreachable_without_exporter_witness :
    (((LogPipeState.noExp OtlpPipeline.mk.logging).with_resource
        { attrs := [("service.name", "demo")] }).with_batch_config
        BatchConfig.default).canInstall = false ∧
    ((MetricPipeState.noExp (OtlpPipeline.mk.metrics ())).with_period 100).canBuild = false :=
  install_unreachable_without_exporter _ _
    (LogReachableNoExporter.withBatchConfig _ _
      (LogReachableNoExporter.withResource _ _ LogReachableNoExporter.start))
    (MetricReachableNoExporter.withPeriod _ _ (MetricReachableNoExporter.start ()))

/-- C7: `OtlpMetricPipeline::build` falls back to
`DefaultTemporalitySelector` / `DefaultAggregationSelector` when no
selector was supplied, and passes an explicitly supplied selector through
to the constructed exporter unchanged. -/
theorem build_uses_default_selectors :
    ∀ (RT : Type) (p : OtlpMetricPipeline RT MetricsExporterBuilder),
      (p.temporality_selector = none →
        (p.build).map (fun prov => prov.reader.map fun rd =>
            rd.exporter.temporality_selector) =
          .ok (some DefaultTemporalitySelector.new.temporality)) ∧
      (∀ f, p.temporality_selector = some f →
        (p.build).map (fun prov => prov.reader.map fun rd =>
            rd.exporter.temporality_selector) =
          .ok (some f)) ∧
      (p.aggregator_selector = none →
        (p.build).map (fun prov => prov.reader.map fun rd =>
            rd.exporter.aggregation_selector) =
          .ok (some DefaultAggregationSelector.new.aggregation)) ∧
      (∀ g, p.aggregator_selector = some g →
        (p.build).map (fun prov => prov.reader.map fun rd =>
            rd.exporter.aggregation_selector) =
          .ok (some g)) := by
  intro RT p
  obtain ⟨rt, aggSel, tSel, eb, res, per, tout⟩ := p
  refine ⟨?_, ?_, ?_, ?_⟩
  · intro h
    subst h
    cases eb <;> cases per <;> cases tout <;> cases res <;> rfl
  · intro f h
    subst h
    cases eb <;> cases per <;> cases tout <;> cases res <;> rfl
  · intro h
    subst h
    cases eb <;> cases per <;> cases tout <;> cases res <;> rfl
  · intro g h
    subst h
    cases eb <;> cases per <;> cases tout <;> cases res <;> rfl

/-- Witness for C7: the sample pipeline without selectors builds with the
defaults; the sample pipeline with explicit selectors passes them through. -/
theorem build_uses_default_selectors_witness :
    ((samplePipelineNoSelectors.build).map (fun prov => prov.reader.map fun rd =>
        rd.exporter.temporality_selector) =
      .ok (some DefaultTemporalitySelector.new.temporality)) ∧
    ((samplePipelineNoSelectors.build).map (fun prov => prov.reader.map fun rd =>
        rd.exporter.aggregation_selector) =
      .ok (some DefaultAggregationSelector.new.aggregation)) ∧
    ((samplePipelineWithSelectors.build).map (fun prov => prov.reader.map fun rd =>
        rd.exporter.temporality_selector) =
      .ok (some DeltaTemporalitySelector.mk.temporality)) ∧
    ((samplePipelineWithSelectors.build).map (fun prov => prov.reader.map fun rd =>
        rd.exporter.aggregation_selector) =
      .ok (some DefaultAggregationSelector.new.aggregation)) :=
  ⟨(build_uses_default_selectors Unit samplePipelineNoSelectors).1 rfl,
   (build_uses_default_selectors Unit samplePipelineNoSelectors).2.2.1 rfl,
   (build_uses_default_selectors Unit samplePipelineWithSelectors).2.1
     DeltaTemporalitySelector.mk.temporality rfl,
   (build_uses_default_selectors Unit samplePipelineWithSelectors).2.2.2
     DefaultAggregationSelector.new.aggregation rfl⟩
